import Mathlib

/- Shallow embedding of the True-Ledger AI repository.

   The repository contains three independent front-end variants of the same
   audit flow:
     Variant A: src/App.tsx
     Variant B: the first document of src/unnamed/part_000, together with
                src/services/videoProcessor.ts (extractFramesFromVideo and
                analyzeEvidence / the Gemini service)
     Variant C: the second document of src/unnamed/part_000

   Browser and library primitives (canvas encoding, JSON.parse, the network
   call, jsPDF text wrapping, Date formatting, Math.random) are abstracted as
   environment parameters.  A ledger row is represented by its serialized JSON
   text, and a captured frame by the data-URL string the canvas encoder
   produced for the playback position at which it was drawn. -/

set_option autoImplicit false

/-- A JavaScript number in duration position: a finite rational, NaN or
Infinity (HTMLVideoElement.duration can report any of the three). -/
inductive JsDuration
  | finite (d : ℚ)
  | nan
  | infinity
  deriving DecidableEq, Repr

/-- `Number.isFinite` on a duration. -/
def JsDuration.isFinite : JsDuration → Bool
  | .finite _ => true
  | .nan => false
  | .infinity => false

/-- Multiplication of a possibly non-finite duration by a positive fractional
offset, as JavaScript computes `duration * 0.1`: NaN propagates, Infinity
stays Infinity. -/
def JsDuration.mulFrac : JsDuration → ℚ → JsDuration
  | .finite d, t => .finite (d * t)
  | .nan, _ => .nan
  | .infinity, _ => .infinity

/-- JavaScript `d || fallback` on a duration: NaN and 0 are falsy, every other
number (including Infinity) is truthy. -/
def jsOrNum (d : JsDuration) (fallback : ℚ) : JsDuration :=
  match d with
  | .finite q => if q = 0 then .finite fallback else .finite q
  | .nan => .finite fallback
  | .infinity => .infinity

/-- JavaScript `s || fallback` on a string: only the empty string is falsy. -/
def jsOrString (s fallback : String) : String :=
  if s = "" then fallback else s

/-- Splitting a character list at commas, accumulating the current segment in
reverse. -/
def splitCommaAux : List Char → List Char → List (List Char)
  | [], acc => [acc.reverse]
  | c :: cs, acc =>
    if c = ',' then acc.reverse :: splitCommaAux cs []
    else splitCommaAux cs (c :: acc)

/-- JavaScript `s.split(',')`. -/
def jsSplitComma (s : String) : List String :=
  (splitCommaAux s.data []).map String.mk

/-- JavaScript `s.split(',')[1]` on a data URL: the base64 payload after the
first comma (the empty string when the URL has no comma, which is falsy in the
same way the JS `undefined` is). -/
def dataUrlPayload (s : String) : String :=
  (jsSplitComma s).getD 1 ""

/-- `JSON.stringify` of an array of ledger rows, each row abstracted to its
serialized JSON text. -/
def jsonStringifyRows (rows : List String) : String :=
  "[" ++ String.intercalate "," rows ++ "]"

/-- `JSON.stringify(rows, null, 2)`: the pretty-printed serialization used by
the Gemini service of variant B. -/
def jsonStringifyRowsPretty (rows : List String) : String :=
  if rows.isEmpty then "[]"
  else "[\n  " ++ String.intercalate ",\n  " rows ++ "\n]"

/-- The response sanitization of variants A and C:
`text.replace` dropping all occurrences of triple-backtick-json and of triple backticks, then `trim()`. -/
def cleanFence (t : String) : String :=
  ((t.replace "```json" "").replace "```" "").trim

/-- A per-item comparison row of the model response shape used by variants A
and C (`stats` entries: item name, claimed quantity, actual quantity). -/
structure StatRow where
  name : String
  claimed : Int
  actual : Int
  deriving DecidableEq, Repr

/-- The parsed model response shape of variants A and C (the `AuditResult`
interface of App.tsx; variant C reads the same fields from its untyped parse
result). -/
structure AuditResultAC where
  risk_score : String
  discrepancy_found : Bool
  financial_impact : String
  confidence_score : Int
  details : String
  summary : String
  stats : List StatRow
  deriving DecidableEq, Repr

/-- One part of a multimodal request to the reasoning service: either a text
block or an inline image attachment. -/
inductive ReqPart
  | text (s : String)
  | inlineImage (mimeType data : String)
  deriving DecidableEq, Repr

/-- A request to `ai.models.generateContent`: model name, optional system
instruction and response mime type from the config, and the parts array. -/
structure GenRequest where
  model : String
  systemInstruction : Option String
  responseMimeType : Option String
  parts : List ReqPart
  deriving DecidableEq, Repr

namespace VariantB

/-- Bookkeeping for the temporary resources of `extractFramesFromVideo`
(src/services/videoProcessor.ts): the object URL created by
`URL.createObjectURL`, and the detached video and canvas elements. -/
structure Resources where
  urlCreated : Bool
  urlRevoked : Bool
  videoRemoved : Bool
  canvasRemoved : Bool
  deriving DecidableEq, Repr

/-- Resource state on the exit path taken before `URL.createObjectURL` runs:
nothing was created, nothing was released. -/
def Resources.untouched : Resources := ⟨false, false, false, false⟩

/-- Resource state after the `cleanup` closure ran: the URL was created and
revoked, and `video.remove()` / `canvas.remove()` were called. -/
def Resources.cleaned : Resources := ⟨true, true, true, true⟩

/-- The rejection reasons of `extractFramesFromVideo`. -/
inductive ExtractError
  | noCtx
  | noDuration
  | mediaError
  deriving DecidableEq, Repr

/-- The message of the Error each rejection path constructs. -/
def ExtractError.message : ExtractError → String
  | .noCtx => "Canvas context not supported by this browser."
  | .noDuration => "Could not determine video duration."
  | .mediaError => "Error processing video file. The file might be corrupted or format unsupported."

/-- Environment of `extractFramesFromVideo`: whether `canvas.getContext` for 2d
succeeds, whether the `onerror` handler fires during metadata load, the
reported duration, an optional step at which `onerror` fires instead of
`onseeked`, and the canvas encoder (`toDataURL` at a playback position). -/
structure VideoEnv where
  ctxOk : Bool
  loadError : Bool
  duration : JsDuration
  failAt : Option Nat
  capture : JsDuration → String

/-- Outcome of `extractFramesFromVideo`: the settled promise, the sequence of
`video.currentTime` assignments issued, and the resource bookkeeping. -/
structure ExtractOut where
  result : Except ExtractError (List String)
  seeks : List JsDuration
  res : Resources

/-- `const timestamps = [0.1, 0.5, 0.9]` with the step index `currentStep`
attached. -/
def timestampsEnum : List (Nat × ℚ) := [(0, 0.1), (1, 0.5), (2, 0.9)]

/-- The `seekToNextFrame` / `captureFrame` loop: for each remaining timestamp,
check `Number.isFinite(video.duration)`, assign `video.currentTime`, and on
`onseeked` draw and push the encoded frame; every exit calls `cleanup`. -/
def seekSteps (env : VideoEnv) :
    List (Nat × ℚ) → List String → List JsDuration → ExtractOut
  | [], frames, seeks => ⟨Except.ok frames, seeks, Resources.cleaned⟩
  | (i, t) :: rest, frames, seeks =>
    if env.duration.isFinite then
      let time := env.duration.mulFrac t
      if env.failAt = some i then
        ⟨Except.error ExtractError.mediaError, seeks ++ [time], Resources.cleaned⟩
      else
        seekSteps env rest (frames ++ [env.capture time]) (seeks ++ [time])
    else
      ⟨Except.error ExtractError.noDuration, seeks, Resources.cleaned⟩

/-- `extractFramesFromVideo` of src/services/videoProcessor.ts.  The
`getContext` check happens before `URL.createObjectURL`, so its rejection
allocates no URL and calls no cleanup; every later exit runs `cleanup`. -/
def extractFramesFromVideo (env : VideoEnv) : ExtractOut :=
  if !env.ctxOk then ⟨Except.error ExtractError.noCtx, [], Resources.untouched⟩
  else if env.loadError then ⟨Except.error ExtractError.mediaError, [], Resources.cleaned⟩
  else seekSteps env timestampsEnum [] []

end VariantB

namespace VariantA

/-- `const duration = video.duration || 10` of App.tsx `extractFrames`: the
fallback replaces NaN (and a zero duration), but not Infinity. -/
def durationWithFallback (d : JsDuration) : JsDuration :=
  jsOrNum d 10

/-- `const timePoints = [duration * 0.1, duration * 0.5, duration * 0.9]`
computed from the reported duration after the fallback. -/
def timePoints (d : JsDuration) : List JsDuration :=
  [(durationWithFallback d).mulFrac 0.1,
   (durationWithFallback d).mulFrac 0.5,
   (durationWithFallback d).mulFrac 0.9]

/-- Environment of App.tsx `extractFrames`: the video/canvas refs, the 2d
context, the reported duration, the canvas encoder, and the JS
`Number.prototype.toFixed(2)` formatter used only in log text. -/
structure FrameEnv where
  videoPresent : Bool
  canvasPresent : Bool
  ctxOk : Bool
  duration : JsDuration
  capture : JsDuration → String
  toFixed2 : JsDuration → String

/-- `extractFrames` of App.tsx: returns the captured frame payloads
(`toDataURL(...).split(',')[1]`) and the log messages it emits, in order.
Missing refs or context return an empty frame list without error. -/
def extractFrames (env : FrameEnv) : List String × List String :=
  if !env.videoPresent || !env.canvasPresent then ([], [])
  else if !env.ctxOk then ([], [])
  else
    ((timePoints env.duration).zip [1, 2, 3]).foldl
      (fun acc it =>
        (acc.1 ++ [dataUrlPayload (env.capture it.1)],
         acc.2 ++ ["> Frame " ++ toString it.2 ++ "/3 captured at " ++ env.toFixed2 it.1 ++ "s"]))
      ([], ["Initiating temporal extraction on 3 keyframes..."])

end VariantA

namespace VariantC

/-- `const timePoints = [duration * 0.1, duration * 0.5, duration * 0.9]` of
the second part_000 variant: no finiteness check and no fallback. -/
def timePoints (d : JsDuration) : List JsDuration :=
  [d.mulFrac 0.1, d.mulFrac 0.5, d.mulFrac 0.9]

/-- Environment of `extractFrames` in the second part_000 variant. -/
structure FrameEnv where
  canvasPresent : Bool
  ctxOk : Bool
  duration : JsDuration
  capture : JsDuration → String

/-- `extractFrames` of the second part_000 variant: seeks the three time
points (waiting a fixed 300ms instead of the `seeked` event) and captures a
frame at each; missing canvas or context return an empty list. -/
def extractFrames (env : FrameEnv) : List String :=
  if !env.canvasPresent then []
  else if !env.ctxOk then []
  else (timePoints env.duration).map (fun t => dataUrlPayload (env.capture t))

end VariantC

namespace VariantA

/-- The part of the App.tsx audit prompt template before the interpolated
ledger snippet. -/
def promptPre : String :=
  "\n        You are an Expert Forensic Auditor performing a \"Test of Details\".\n        \n        INPUT DATA:\n        1. CLAIMED INVENTORY (CSV Ledger): "

/-- The part of the App.tsx audit prompt template after the interpolated
ledger snippet: the protocol and the required JSON output schema. -/
def promptPost : String :=
  "\n        2. VISUAL EVIDENCE: 3 temporal frames from the warehouse video.\n\n        PROTOCOL:\n        1. Identify items in the video frames.\n        2. Count visible quantities strictly.\n        3. Cross-reference with the CSV Ledger.\n        4. Calculate financial impact of any missing items (assume avg unit cost $500 if unknown).\n\n        OUTPUT REQUIREMENTS:\n        Return ONLY valid JSON. No markdown formatting.\n        Schema:\n        \x7b\n          \"risk_score\": \"HIGH\" | \"LOW\" | \"MEDIUM\",\n          \"discrepancy_found\": boolean,\n          \"financial_impact\": \"$ string\",\n          \"confidence_score\": number (0-100),\n          \"details\": \"Technical explanation of findings...\",\n          \"summary\": \"Executive summary...\",\n          \"stats\": [\n            \x7b \"name\": \"Item Name\", \"claimed\": number, \"actual\": number \x7d\n          ]\n        \x7d\n      "

/-- The request App.tsx `runForensicAudit` submits: one text part holding the
prompt with `JSON.stringify(csvData.slice(0, 15))` interpolated, followed by
the frames as inline jpeg attachments. -/
def buildRequest (csvData frames : List String) : GenRequest :=
  { model := "gemini-3-pro-preview",
    systemInstruction := none,
    responseMimeType := some "application/json",
    parts := ReqPart.text (promptPre ++ jsonStringifyRows (csvData.take 15) ++ promptPost)
              :: frames.map (fun f => ReqPart.inlineImage "image/jpeg" f) }

/-- The `AuditStatus` union type of App.tsx. -/
inductive AuditStatus
  | IDLE
  | EXTRACTING
  | REASONING
  | COMPLETED
  | ERROR
  deriving DecidableEq, Repr

/-- The React state of the App.tsx variant that the audit flow touches. -/
structure State where
  status : AuditStatus
  logs : List String
  csvData : List String
  videoPresent : Bool
  canvasPresent : Bool
  result : Option AuditResultAC
  deriving DecidableEq, Repr

/-- Environment of one App.tsx `runForensicAudit` call: the media and canvas
behavior, the clock used by `addLog`, and the reasoning-service response
(`none` models a rejected `generateContent` call) together with the abstracted
`JSON.parse` (`none` models a parse exception). -/
structure Env where
  ctxOk : Bool
  duration : JsDuration
  capture : JsDuration → String
  toFixed2 : JsDuration → String
  now : String
  responseText : Option String
  netErrMsg : String
  parseErrMsg : String
  parse : String → Option AuditResultAC

/-- Outcome of one `runForensicAudit` call: the final state, the requests sent
to the reasoning service, and the sequence of `setStatus` assignments. -/
structure RunOut where
  state : State
  requests : List GenRequest
  statusTrace : List AuditStatus

/-- `addLog` of App.tsx: appends a timestamped message. -/
def addLog (now msg : String) (logs : List String) : List String :=
  logs ++ ["[" ++ now ++ "] " ++ msg]

/-- Appending a batch of messages through `addLog`, in order. -/
def addLogBatch (now : String) (logs msgs : List String) : List String :=
  msgs.foldl (fun l m => addLog now m l) logs

/-- `runForensicAudit` of App.tsx.  Missing evidence alerts and returns;
otherwise the status is set to EXTRACTING, the logs are cleared and rebuilt,
frames are extracted, one request is sent, and the response is sanitized and
parsed; any exception lands in the catch block which sets ERROR and logs a
CRITICAL ERROR entry.  The previous `result` is never reset on this path. -/
def runForensicAudit (env : Env) (s : State) : RunOut :=
  if s.csvData.isEmpty || !s.videoPresent then ⟨s, [], []⟩
  else
    let logs0 := addLog env.now "Secure environment established."
                  (addLog env.now "TRUE-LEDGER AI v2.0 Initialized." [])
    let fr := extractFrames ⟨s.videoPresent, s.canvasPresent, env.ctxOk, env.duration,
                             env.capture, env.toFixed2⟩
    let logs1 := addLog env.now
                  "Visual evidence secured. Connecting to Gemini 3 Pro Neural Network..."
                  (addLogBatch env.now logs0 fr.2)
    let logs2 := addLog env.now "Payload transmission started..." logs1
    let req := buildRequest s.csvData fr.1
    match env.responseText with
    | none =>
        ⟨{ s with status := AuditStatus.ERROR,
                  logs := addLog env.now ("CRITICAL ERROR: " ++ env.netErrMsg) logs2 },
         [req], [AuditStatus.EXTRACTING, AuditStatus.REASONING, AuditStatus.ERROR]⟩
    | some t =>
        let logs3 := addLog env.now "Response received. Parsing forensic data..." logs2
        match env.parse (cleanFence (jsOrString t "\x7b\x7d")) with
        | none =>
            ⟨{ s with status := AuditStatus.ERROR,
                      logs := addLog env.now ("CRITICAL ERROR: " ++ env.parseErrMsg) logs3 },
             [req], [AuditStatus.EXTRACTING, AuditStatus.REASONING, AuditStatus.ERROR]⟩
        | some r =>
            ⟨{ s with status := AuditStatus.COMPLETED, result := some r,
                      logs := addLog env.now ("AUDIT COMPLETE. Risk Level: " ++ r.risk_score) logs3 },
             [req], [AuditStatus.EXTRACTING, AuditStatus.REASONING, AuditStatus.COMPLETED]⟩

/-- The App.tsx trigger-button condition
disabled when the status is none of IDLE, COMPLETED, ERROR. -/
def buttonDisabled (st : AuditStatus) : Bool :=
  !(st == AuditStatus.IDLE) && !(st == AuditStatus.COMPLETED) && !(st == AuditStatus.ERROR)

/-- The statuses `runForensicAudit` assigns strictly between the trigger and
its completion or failure. -/
def inFlight (st : AuditStatus) : Bool :=
  st == AuditStatus.EXTRACTING || st == AuditStatus.REASONING

end VariantA

namespace VariantB

/-- One `findings_data` entry of the variant-B audit result (shape fixed by
the system instruction of `analyzeEvidence` and the fields the dashboard
reads). -/
structure Finding where
  item_name : String
  claimed_qty : Int
  actual_qty : Int
  status : String
  deriving DecidableEq, Repr

/-- The variant-B `AuditResult` shape. -/
structure AuditResult where
  audit_pass : Bool
  discrepancy_details : String
  risk_score : String
  financial_impact : String
  auditor_notes : String
  findings_data : List Finding
  deriving DecidableEq, Repr

/-- One `AuditLog` entry of variant B: random id, timestamp, message and
severity type. -/
structure AuditLog where
  id : String
  timestamp : String
  message : String
  type : String
  deriving DecidableEq, Repr

/-- The `ProcessingStatus` union of variant B. -/
inductive ProcessingStatus
  | IDLE
  | ANALYZING
  | COMPLETED
  | ERROR
  deriving DecidableEq, Repr

/-- The React state of variant B that the audit flow touches. -/
structure State where
  status : String
  ledgerData : List String
  videoFilePresent : Bool
  extractedFrames : List String
  auditResult : Option AuditResult
  logs : List AuditLog
  processingState : ProcessingStatus
  deriving DecidableEq, Repr

/-- Environment of one variant-B `handleProcess` call. -/
structure Env where
  video : VideoEnv
  responseText : Option String
  netErrMsg : String
  parseErrMsg : String
  parse : String → Option AuditResult
  logId : String
  now : String

/-- Outcome of one `handleProcess` call. -/
structure RunOut where
  state : State
  requests : List GenRequest
  statusTrace : List ProcessingStatus

/-- `addLog` of variant B. -/
def addLog (env : Env) (message type : String) (logs : List AuditLog) : List AuditLog :=
  logs ++ [⟨env.logId, env.now, message, type⟩]

/-- The system instruction `analyzeEvidence` passes in its request config. -/
def sysInstructionText : String :=
  "You are a Senior Forensic Auditor performing a Test of Details.\n\nInput: You have a Ledger (CSV) claiming certain quantities, and 3 video frames of the actual warehouse.\n\nTask: Count the visible items in the images. Compare them to the CSV quantities.\n\nLogic: If the CSV says \x2710 Monitors\x27 but you only see 2, that is a Discrepancy.\n\nOutput: Return a strict JSON object: \x7b \n  \"audit_pass\": boolean, \n  \"discrepancy_details\": string, \n  \"risk_score\": \"High/Med/Low\", \n  \"financial_impact\": string, \n  \"auditor_notes\": string,\n  \"findings_data\": [\n    \x7b \"item_name\": string, \"claimed_qty\": number, \"actual_qty\": number, \"status\": \"MATCH\" | \"DISCREPANCY\" \x7d\n  ]\n\x7d"

/-- The first text part of the `analyzeEvidence` request: the whole parsed
ledger, pretty-printed, with no row limit. -/
def ledgerText (rows : List String) : String :=
  "Here is the Uploaded Inventory Ledger (Claimed Data):\n" ++ jsonStringifyRowsPretty rows

/-- The request `analyzeEvidence` submits: the ledger text part, then every
frame whose `split(',')[1]` payload is truthy as an inline jpeg attachment. -/
def buildRequest (rows frames : List String) : GenRequest :=
  { model := "gemini-3-pro-preview",
    systemInstruction := some sysInstructionText,
    responseMimeType := some "application/json",
    parts := ReqPart.text (ledgerText rows)
              :: frames.filterMap (fun f =>
                  if dataUrlPayload f = "" then none
                  else some (ReqPart.inlineImage "image/jpeg" (dataUrlPayload f))) }

/-- The catch block of `handleProcess`: logs the analysis failure and flips
the processing state and status label to their error values. -/
def failRun (env : Env) (s1 : State) (reqs : List GenRequest) (msg : String) : RunOut :=
  ⟨{ s1 with logs := addLog env ("Analysis failed: " ++ msg) "error" s1.logs,
             processingState := ProcessingStatus.ERROR, status := "Error" },
   reqs, [ProcessingStatus.ANALYZING, ProcessingStatus.ERROR]⟩

/-- `handleProcess` of variant B: warns on missing evidence; otherwise sets
ANALYZING, clears the previous result, extracts frames via
`extractFramesFromVideo`, submits one `analyzeEvidence` request, and settles
on the parsed result or in the catch block.  The log is never cleared. -/
def handleProcess (env : Env) (s : State) : RunOut :=
  if s.ledgerData.isEmpty || !s.videoFilePresent then
    ⟨{ s with logs := addLog env "Missing evidence. Upload Ledger and Video." "warning" s.logs },
     [], []⟩
  else
    let s1 := { s with processingState := ProcessingStatus.ANALYZING,
                       status := "Reasoning...", auditResult := none }
    match (extractFramesFromVideo env.video).result with
    | Except.error e => failRun env s1 [] e.message
    | Except.ok frames =>
      if frames.isEmpty then failRun env s1 [] "Failed extraction."
      else
        let s2 := { s1 with extractedFrames := frames }
        let req := buildRequest s.ledgerData frames
        match env.responseText with
        | none => failRun env s2 [req] env.netErrMsg
        | some t =>
          if t = "" then failRun env s2 [req] "No response generated from analysis model."
          else
            match env.parse t with
            | none => failRun env s2 [req] env.parseErrMsg
            | some r =>
              let s3 := { s2 with auditResult := some r,
                                  processingState := ProcessingStatus.COMPLETED }
              if r.audit_pass then
                ⟨{ s3 with status := "Clean",
                           logs := addLog env "Audit PASSED." "success" s3.logs },
                 [req], [ProcessingStatus.ANALYZING, ProcessingStatus.COMPLETED]⟩
              else
                ⟨{ s3 with status := "Flagged",
                           logs := addLog env
                             ("Discrepancies found (" ++ r.risk_score ++ " Risk).") "error" s3.logs },
                 [req], [ProcessingStatus.ANALYZING, ProcessingStatus.COMPLETED]⟩

/-- The variant-B trigger-button condition
`disabled={!ledgerData.length || !videoFile || isProcessing}`. -/
def buttonDisabled (ledgerData : List String) (videoFilePresent : Bool)
    (ps : ProcessingStatus) : Bool :=
  ledgerData.isEmpty || !videoFilePresent || (ps == ProcessingStatus.ANALYZING)

end VariantB

namespace VariantC

/-- The part of the variant-C system prompt template before the interpolated
ledger text. -/
def promptPre : String :=
  "\n        You are True-Ledger, a Forensic Audit AI.\n        \n        TASK:\n        1. Read the LEDGER DATA: "

/-- The part of the variant-C system prompt template after the interpolated
ledger text. -/
def promptPost : String :=
  "\n        2. Look at the VIDEO FRAMES.\n        3. Compare the Claimed Quantities (Ledger) vs Actual Quantities (Video).\n        \n        OUTPUT JSON:\n        \x7b\n          \"discrepancy_found\": true,\n          \"risk_score\": \"HIGH\", \n          \"financial_impact\": \"$3,500\",\n          \"summary\": \"Ledger claims 5 items, Video shows 2.\",\n          \"details\": \"Visual inspection confirms missing inventory...\",\n          \"stats\": [\n             \x7b \"name\": \"Item A\", \"claimed\": 5, \"actual\": 2 \x7d\n          ]\n        \x7d\n      "

/-- The request variant C submits: one text part holding the prompt with
`JSON.stringify(csvData.slice(0, 10))` interpolated, then the frames as
inline jpeg attachments. -/
def buildRequest (csvData frames : List String) : GenRequest :=
  { model := "gemini-3-pro-preview",
    systemInstruction := none,
    responseMimeType := some "application/json",
    parts := ReqPart.text (promptPre ++ jsonStringifyRows (csvData.take 10) ++ promptPost)
              :: frames.map (fun f => ReqPart.inlineImage "image/jpeg" f) }

/-- The React state of variant C that the audit flow touches (`csvData` is
`any[] | null`, so an uploaded empty ledger is still truthy). -/
structure State where
  csvData : Option (List String)
  videoFilePresent : Bool
  videoRefPresent : Bool
  canvasPresent : Bool
  status : String
  result : Option AuditResultAC
  logs : List String
  deriving DecidableEq, Repr

/-- Environment of one variant-C `handleAnalyze` call. -/
structure Env where
  ctxOk : Bool
  duration : JsDuration
  capture : JsDuration → String
  responseText : Option String
  netErrMsg : String
  parseErrMsg : String
  parse : String → Option AuditResultAC

/-- Outcome of one `handleAnalyze` call (statuses are plain strings in this
variant). -/
structure RunOut where
  state : State
  requests : List GenRequest
  statusTrace : List String

/-- The catch block of `handleAnalyze`: logs the error, logs the backup
notice, and sets the status back to READY (not to an error state). -/
def failRun (s : State) (logsSoFar : List String) (reqs : List GenRequest)
    (msg : String) : RunOut :=
  ⟨{ s with status := "READY",
            logs := logsSoFar ++ ["ERROR: " ++ msg, "Using backup protocol due to API error..."] },
   reqs, ["ANALYZING", "READY"]⟩

/-- `handleAnalyze` of variant C: alerts and returns on missing evidence;
otherwise sets ANALYZING, clears the logs, extracts frames with no duration
check, submits one request, parses the sanitized response, and on any error
falls into the catch block.  The previous `result` is never reset. -/
def handleAnalyze (env : Env) (s : State) : RunOut :=
  match s.csvData with
  | none => ⟨s, [], []⟩
  | some csv =>
    if !s.videoFilePresent then ⟨s, [], []⟩
    else
      let logs0 := ["Connected to Gemini 3 Pro...", "Processing Video Stream..."]
      if !s.videoRefPresent then failRun s logs0 [] "Video element not found"
      else
        let frames := extractFrames ⟨s.canvasPresent, env.ctxOk, env.duration, env.capture⟩
        let logs1 := logs0 ++ ["Extracted " ++ toString frames.length ++ " frames for analysis",
                               "Sending payload to Neural Network..."]
        let req := buildRequest csv frames
        match env.responseText with
        | none => failRun s logs1 [req] env.netErrMsg
        | some t =>
          match env.parse (cleanFence (jsOrString t "\x7b\x7d")) with
          | none => failRun s logs1 [req] env.parseErrMsg
          | some r =>
            ⟨{ s with status := "COMPLETED", result := some r,
                      logs := logs1 ++ ["Audit Complete. Risks Flagged."] },
             [req], ["ANALYZING", "COMPLETED"]⟩

/-- The variant-C trigger-button condition disabled when the status equals ANALYZING. -/
def buttonDisabled (status : String) : Bool :=
  status == "ANALYZING"

end VariantC

/-- One text item drawn into the generated PDF: page number, position and
string (colors, fonts, rectangles and rules are not modelled). -/
structure PdfText where
  page : Nat
  x : ℚ
  y : ℚ
  str : String
  deriving DecidableEq, Repr

/-- A jsPDF document, reduced to its page count and drawn text items. -/
structure PdfDoc where
  pages : Nat
  texts : List PdfText
  deriving DecidableEq, Repr

/-- A fresh jsPDF document: one page, nothing drawn. -/
def PdfDoc.empty : PdfDoc := ⟨1, []⟩

/-- `doc.text(s, x, y)` on the current page. -/
def PdfDoc.text (d : PdfDoc) (s : String) (x y : ℚ) : PdfDoc :=
  { d with texts := d.texts ++ [⟨d.pages, x, y, s⟩] }

/-- `doc.text(lines, x, y)` with an array argument; jsPDF advances the
baseline per line, which is abstracted away here. -/
def PdfDoc.textLines (d : PdfDoc) (lines : List String) (x y : ℚ) : PdfDoc :=
  lines.foldl (fun dd ln => dd.text ln x y) d

/-- `doc.addPage()`. -/
def PdfDoc.addPage (d : PdfDoc) : PdfDoc :=
  { d with pages := d.pages + 1 }

namespace VariantA

/-- The per-cell fill of the App.tsx discrepancy chart:
rose (f43f5e) when actual is below claimed, otherwise green (10b981). -/
def cellFill (e : StatRow) : String :=
  if e.actual < e.claimed then "#f43f5e" else "#10b981"

/-- What the App.tsx result panel shows for a result record. -/
structure View where
  riskText : String
  impactText : String
  confidenceShown : Int
  summaryText : String
  detailsText : String
  chartRows : List StatRow
  actualCellFills : List String
  deriving DecidableEq, Repr

/-- The App.tsx result renderer, read off the JSX of the right column. -/
def renderResult (r : AuditResultAC) : View :=
  ⟨r.risk_score, r.financial_impact, r.confidence_score, r.summary, r.details,
   r.stats, r.stats.map cellFill⟩

/-- The right column renders the result panel exactly when `result` is
non-null; otherwise the placeholder is shown. -/
def displayedResult (res : Option AuditResultAC) : Option View :=
  res.map renderResult

/-- `String(item.claimed) !== ...` status cell of the certificate row:
DISCREPANCY when the quantities differ, MATCH otherwise. -/
def rowStatusText (it : StatRow) : String :=
  if it.claimed ≠ it.actual then "DISCREPANCY" else "MATCH"

/-- One iteration of the App.tsx certificate stats loop: on row-cursor
overflow past 270 a page is added and the cursor reset to 20, then the four
cells are drawn and the cursor advances by 8. -/
def certRowStep (acc : PdfDoc × ℚ) (it : StatRow) : PdfDoc × ℚ :=
  let d0 := if acc.2 > 270 then acc.1.addPage else acc.1
  let yRow := if acc.2 > 270 then (20 : ℚ) else acc.2
  ((((d0.text it.name 20 yRow).text (toString it.claimed) 100 yRow).text
      (toString it.actual) 130 yRow).text (rowStatusText it) 160 yRow,
   yRow + 8)

/-- Environment of `downloadCertificate`: the random audit id, the formatted
date, and the jsPDF `splitTextToSize(summary, 180)` line wrapper. -/
structure CertEnv where
  auditId : Nat
  dateStr : String
  splitSummary : String → List String

/-- jsPDF default A4 page height in its unit system. -/
def pageHeight : ℚ := 297

/-- The certificate content drawn before the stats rows: header title, meta
lines, findings heading, wrapped summary, and the stats table header. -/
def certPrelude (env : CertEnv) (r : AuditResultAC) : PdfDoc :=
  let d := PdfDoc.empty.text "TRUE-LEDGER FORENSIC AUDIT" 15 25
  let d := d.text ("AUDIT ID: TL-" ++ toString env.auditId) 15 50
  let d := d.text ("DATE: " ++ env.dateStr) 15 55
  let d := d.text "EXECUTIVE FINDINGS" 15 75
  let d := d.textLines (env.splitSummary (jsOrString r.summary "No summary available.")) 15 85
  let y0 : ℚ := 110 + (env.splitSummary (jsOrString r.summary "No summary available.")).length * 5
  (((d.text "Item" 20 y0).text "Claimed" 100 y0).text "Actual" 130 y0).text "Status" 160 y0

/-- The row cursor at the first stats row:
`y = 110 + summary.length * 5` then `y += 10` after the table header. -/
def certStartY (env : CertEnv) (r : AuditResultAC) : ℚ :=
  110 + (env.splitSummary (jsOrString r.summary "No summary available.")).length * 5 + 10

/-- The full certificate document of App.tsx `downloadCertificate` for a
present result: prelude, one four-cell row per stats entry with the overflow
check before each row, and the signature footer. -/
def buildCert (env : CertEnv) (r : AuditResultAC) : PdfDoc :=
  let out := r.stats.foldl certRowStep (certPrelude env r, certStartY env r)
  (out.1.text "Digitally Signed by True-Ledger AI 2.0" 15 (pageHeight - 30 + 5)).text
    "Principal Architect & CA" 15 (pageHeight - 30 + 10)

/-- `downloadCertificate` of App.tsx: returns immediately when no result is
present, otherwise builds and saves the certificate. -/
def downloadCertificate (env : CertEnv) (res : Option AuditResultAC) : Option PdfDoc :=
  match res with
  | none => none
  | some r => some (buildCert env r)

end VariantA

namespace VariantB

/-- The per-cell fill of the variant-B findings chart:
rose (f43f5e) when the status field equals DISCREPANCY, otherwise green (10b981). -/
def cellFill (f : Finding) : String :=
  if f.status == "DISCREPANCY" then "#f43f5e" else "#10b981"

/-- The risk banner headline of the variant-B dashboard. -/
def riskBanner (r : AuditResult) : String :=
  if r.risk_score == "High" then "CRITICAL DISCREPANCY" else "AUDIT PASSED"

/-- `totalClaimed`: the reduce over `findings_data` claimed quantities. -/
def totalClaimed (r : AuditResult) : Int :=
  (r.findings_data.map Finding.claimed_qty).sum

/-- `totalActual`: the reduce over `findings_data` actual quantities. -/
def totalActual (r : AuditResult) : Int :=
  (r.findings_data.map Finding.actual_qty).sum

/-- `variance = totalActual - totalClaimed`. -/
def variance (r : AuditResult) : Int :=
  totalActual r - totalClaimed r

/-- What the variant-B dashboard shows for a result record. -/
structure View where
  banner : String
  riskShown : String
  impactText : String
  notesText : String
  totalClaimedShown : Int
  totalActualShown : Int
  varianceShown : Int
  chartRows : List Finding
  actualCellFills : List String
  deriving DecidableEq, Repr

/-- The variant-B result renderer, read off the dashboard JSX. -/
def renderResult (r : AuditResult) : View :=
  ⟨riskBanner r, r.risk_score, r.financial_impact, r.auditor_notes,
   totalClaimed r, totalActual r, variance r,
   r.findings_data, r.findings_data.map cellFill⟩

/-- A finding is well formed when its status field is the derived
match/discrepancy status of its quantities (the spec data model calls the
status "derived"). -/
def Finding.wellFormed (f : Finding) : Prop :=
  (f.status = "DISCREPANCY") ↔ f.claimed_qty ≠ f.actual_qty

/-- The simplified variant-B certificate: a single title line, no findings
table, no pagination. -/
def certDoc : PdfDoc :=
  PdfDoc.empty.text "TRUE-LEDGER REPORT" 20 20

/-- `handleDownloadCertificate` of variant B: returns immediately when no
result is present; otherwise saves the title-only document and appends a
success log entry. -/
def handleDownloadCertificate (env : Env) (res : Option AuditResult)
    (logs : List AuditLog) : Option PdfDoc × List AuditLog :=
  match res with
  | none => (none, logs)
  | some _ => (some certDoc, addLog env "Certificate downloaded." "success" logs)

end VariantB

namespace VariantC

/-- The uniform claimed-bar fill of the variant-C chart. -/
def claimedBarFill : String := "#475569"

/-- The uniform actual-bar fill of the variant-C chart: constant, with no
per-row discrepancy distinction. -/
def actualBarFill : String := "#f43f5e"

/-- What the variant-C findings panel shows for a result record. -/
structure View where
  riskText : String
  impactText : String
  notesText : String
  summaryText : String
  chartRows : List StatRow
  actualCellFills : List String
  deriving DecidableEq, Repr

/-- The variant-C result renderer, read off the findings JSX (auditor notes
show `result.details`; every actual bar gets the same fill). -/
def renderResult (r : AuditResultAC) : View :=
  ⟨r.risk_score, r.financial_impact, r.details, r.summary,
   r.stats, r.stats.map (fun _ => actualBarFill)⟩

end VariantC

/-- Modelled from the spec: pagination triggers exactly when the accumulated
row cursor exceeds the fixed budget — counts the page breaks a row sequence
causes, starting from a given cursor, with the given row height and
continuation-page top. -/
def specPageBreaks (budget rowH top : ℚ) : ℚ → List StatRow → Nat
  | _, [] => 0
  | y, _ :: rest =>
    if y > budget then 1 + specPageBreaks budget rowH top (top + rowH) rest
    else specPageBreaks budget rowH top (y + rowH) rest

namespace VariantB

/-- On a finite duration with a working context, no load error and no media
error, `extractFramesFromVideo` seeks the three fractional timestamps in
order, captures a frame after each, and cleans up. -/
theorem extract_ok (env : VideoEnv) (D : ℚ) (hc : env.ctxOk = true)
    (hl : env.loadError = false) (hd : env.duration = JsDuration.finite D)
    (hf : env.failAt = none) :
    extractFramesFromVideo env =
      ⟨Except.ok [env.capture (JsDuration.finite (D * 0.1)),
                  env.capture (JsDuration.finite (D * 0.5)),
                  env.capture (JsDuration.finite (D * 0.9))],
       [JsDuration.finite (D * 0.1), JsDuration.finite (D * 0.5),
        JsDuration.finite (D * 0.9)],
       Resources.cleaned⟩ := by
  simp [extractFramesFromVideo, hc, hl, seekSteps, timestampsEnum, hd, hf,
        JsDuration.isFinite, JsDuration.mulFrac]

/-- Every exit of the seek loop runs the cleanup closure. -/
theorem seekSteps_res (env : VideoEnv) :
    ∀ (l : List (Nat × ℚ)) (fs : List String) (sk : List JsDuration),
      (seekSteps env l fs sk).res = Resources.cleaned := by
  intro l
  induction l with
  | nil => intro fs sk; rfl
  | cons h t ih =>
    intro fs sk
    obtain ⟨i, q⟩ := h
    by_cases hF : env.duration.isFinite
    · by_cases hA : env.failAt = some i
      · simp [seekSteps, hF, hA]
      · simp [seekSteps, hF, hA, ih]
    · simp [seekSteps, hF]

/-- An error result of the seek loop carries no frames (the promise rejects
instead of resolving). -/
theorem extract_error_no_frames (env : VideoEnv) (e : ExtractError)
    (h : (extractFramesFromVideo env).result = Except.error e) :
    ∀ fs, (extractFramesFromVideo env).result ≠ Except.ok fs := by
  intro fs hk
  rw [h] at hk
  exact Except.noConfusion hk

end VariantB

namespace VariantA

/-- With both refs and a working context, App.tsx `extractFrames` captures
exactly the three time-point frames, in order. -/
theorem extractFrames_frames (env : FrameEnv) (hv : env.videoPresent = true)
    (hc : env.canvasPresent = true) (hx : env.ctxOk = true) :
    (extractFrames env).1 =
      [dataUrlPayload (env.capture ((durationWithFallback env.duration).mulFrac 0.1)),
       dataUrlPayload (env.capture ((durationWithFallback env.duration).mulFrac 0.5)),
       dataUrlPayload (env.capture ((durationWithFallback env.duration).mulFrac 0.9))] := by
  simp [extractFrames, hv, hc, hx, timePoints, List.zip]

/-- The `|| 10` fallback is the identity on nonzero finite durations. -/
theorem durationWithFallback_finite (D : ℚ) (hD : D ≠ 0) :
    durationWithFallback (JsDuration.finite D) = JsDuration.finite D := by
  simp [durationWithFallback, jsOrNum, hD]

end VariantA

/-- C1: the spec requires every variant to fail with an error and zero frames
on a non-finite duration, with no constant fallback duration.  Variant B
(videoProcessor.ts) does so, but App.tsx computes `video.duration || 10`, so
a NaN duration silently becomes 10, the seek targets become 1s, 5s, 9s, and
three frames are produced; the second part_000 variant performs no finiteness
check at all and derives its three seek targets directly from the non-finite
duration.  This theorem evaluates the code at the failing input. -/
theorem C1_nonfinite_duration_code_bug :
    VariantA.durationWithFallback JsDuration.nan = JsDuration.finite 10
    ∧ VariantA.timePoints JsDuration.nan =
        [JsDuration.finite 1, JsDuration.finite 5, JsDuration.finite 9]
    ∧ (VariantA.extractFrames
        ⟨true, true, true, JsDuration.nan, fun _ => "data:image/jpeg;base64,QUFB",
         fun _ => "1.00"⟩).1.length = 3
    ∧ (VariantB.extractFramesFromVideo
        ⟨true, false, JsDuration.nan, none, fun _ => "data:image/jpeg;base64,QUFB"⟩).result
        = Except.error VariantB.ExtractError.noDuration
    ∧ (VariantB.extractFramesFromVideo
        ⟨true, false, JsDuration.nan, none, fun _ => "data:image/jpeg;base64,QUFB"⟩).seeks = []
    ∧ VariantC.timePoints JsDuration.nan = [JsDuration.nan, JsDuration.nan, JsDuration.nan]
    ∧ VariantC.timePoints JsDuration.infinity =
        [JsDuration.infinity, JsDuration.infinity, JsDuration.infinity] := by
  refine ⟨rfl, ?_, rfl, rfl, rfl, rfl, rfl⟩
  norm_num [VariantA.timePoints, VariantA.durationWithFallback, jsOrNum, JsDuration.mulFrac]

/-- C2 counterexample: a zero duration is finite, but App.tsx treats it as
falsy, substitutes 10, and seeks 1s, 5s, 9s instead of the required
0.1×0, 0.5×0, 0.9×0. -/
theorem C2_counterexample :
    VariantA.timePoints (JsDuration.finite 0) =
        [JsDuration.finite 1, JsDuration.finite 5, JsDuration.finite 9]
    ∧ VariantA.timePoints (JsDuration.finite 0) ≠
        [JsDuration.finite (0 * 0.1), JsDuration.finite (0 * 0.5),
         JsDuration.finite (0 * 0.9)] := by
  constructor
  · norm_num [VariantA.timePoints, VariantA.durationWithFallback, jsOrNum, JsDuration.mulFrac]
  · norm_num [VariantA.timePoints, VariantA.durationWithFallback, jsOrNum, JsDuration.mulFrac]

/-- C2 (amended): for every video of finite duration D — nonzero D for the
App.tsx variant, whose `|| 10` fallback also fires on a zero duration — each
sampler of each variant requests exactly the three timestamps 0.1×D, 0.5×D, 0.9×D
in that order and, on success, returns exactly the three frames captured
after those seeks in order; on failure variant B rejects with no frames, and
variants A and C return an empty frame list when the refs or context are
missing. -/
theorem C2_three_timestamps :
    (∀ (env : VariantB.VideoEnv) (D : ℚ),
      env.ctxOk = true → env.loadError = false →
      env.duration = JsDuration.finite D → env.failAt = none →
      (VariantB.extractFramesFromVideo env).seeks =
          [JsDuration.finite (D * 0.1), JsDuration.finite (D * 0.5),
           JsDuration.finite (D * 0.9)]
        ∧ (VariantB.extractFramesFromVideo env).result =
          Except.ok [env.capture (JsDuration.finite (D * 0.1)),
                     env.capture (JsDuration.finite (D * 0.5)),
                     env.capture (JsDuration.finite (D * 0.9))])
    ∧ (∀ (env : VariantA.FrameEnv) (D : ℚ), D ≠ 0 →
      env.duration = JsDuration.finite D →
      env.videoPresent = true → env.canvasPresent = true → env.ctxOk = true →
      VariantA.timePoints env.duration =
          [JsDuration.finite (D * 0.1), JsDuration.finite (D * 0.5),
           JsDuration.finite (D * 0.9)]
        ∧ (VariantA.extractFrames env).1 =
          [dataUrlPayload (env.capture (JsDuration.finite (D * 0.1))),
           dataUrlPayload (env.capture (JsDuration.finite (D * 0.5))),
           dataUrlPayload (env.capture (JsDuration.finite (D * 0.9)))])
    ∧ (∀ (env : VariantC.FrameEnv) (D : ℚ),
      env.duration = JsDuration.finite D →
      env.canvasPresent = true → env.ctxOk = true →
      VariantC.timePoints env.duration =
          [JsDuration.finite (D * 0.1), JsDuration.finite (D * 0.5),
           JsDuration.finite (D * 0.9)]
        ∧ VariantC.extractFrames env =
          [dataUrlPayload (env.capture (JsDuration.finite (D * 0.1))),
           dataUrlPayload (env.capture (JsDuration.finite (D * 0.5))),
           dataUrlPayload (env.capture (JsDuration.finite (D * 0.9)))])
    ∧ (∀ env : VariantA.FrameEnv, env.canvasPresent = false →
        VariantA.extractFrames env = ([], []))
    ∧ (∀ env : VariantC.FrameEnv, env.canvasPresent = false →
        VariantC.extractFrames env = []) := by
  refine ⟨?_, ?_, ?_, ?_, ?_⟩
  · intro env D hc hl hd hf
    rw [VariantB.extract_ok env D hc hl hd hf]
    exact ⟨rfl, rfl⟩
  · intro env D hD hd hv hc hx
    have hfb := VariantA.durationWithFallback_finite D hD
    constructor
    · simp [VariantA.timePoints, hd, hfb, JsDuration.mulFrac]
    · rw [VariantA.extractFrames_frames env hv hc hx, hd, hfb]
      simp [JsDuration.mulFrac]
  · intro env D hd hc hx
    constructor
    · simp [VariantC.timePoints, hd, JsDuration.mulFrac]
    · simp [VariantC.extractFrames, hc, hx, VariantC.timePoints, hd, JsDuration.mulFrac]
  · intro env h
    simp [VariantA.extractFrames, h]
  · intro env h
    simp [VariantC.extractFrames, h]

/-- C2 witness: the amended theorem applied at duration 20 in a concrete
environment. -/
theorem C2_three_timestamps_witness :
    (VariantB.extractFramesFromVideo
        ⟨true, false, JsDuration.finite 20, none, fun _ => "data:image/jpeg;base64,QUFB"⟩).seeks
      = [JsDuration.finite (20 * 0.1), JsDuration.finite (20 * 0.5),
         JsDuration.finite (20 * 0.9)]
    ∧ (VariantA.extractFrames
        ⟨true, true, true, JsDuration.finite 20, fun _ => "data:image/jpeg;base64,QUFB",
         fun _ => "2.00"⟩).1
      = [dataUrlPayload ((fun (_ : JsDuration) => "data:image/jpeg;base64,QUFB") (JsDuration.finite (20 * 0.1))),
         dataUrlPayload ((fun (_ : JsDuration) => "data:image/jpeg;base64,QUFB") (JsDuration.finite (20 * 0.5))),
         dataUrlPayload ((fun (_ : JsDuration) => "data:image/jpeg;base64,QUFB") (JsDuration.finite (20 * 0.9)))] :=
  ⟨(C2_three_timestamps.1
      ⟨true, false, JsDuration.finite 20, none, fun _ => "data:image/jpeg;base64,QUFB"⟩
      20 rfl rfl rfl rfl).1,
   (C2_three_timestamps.2.1
      ⟨true, true, true, JsDuration.finite 20, fun _ => "data:image/jpeg;base64,QUFB",
       fun _ => "2.00"⟩
      20 (by decide) rfl rfl rfl rfl).2⟩

/-- C5: in every variant the trigger control is disabled throughout the
in-flight statuses, and every status a run assigns strictly before it settles
is such an in-flight status, so a second audit cannot start while one is
outstanding.  In App.tsx the disabled condition is exactly the in-flight
predicate; in variant B it also covers missing evidence; in variant C it is
the ANALYZING check. -/
theorem C5_trigger_disabled_while_in_flight :
    (∀ st, VariantA.buttonDisabled st = VariantA.inFlight st)
    ∧ (∀ (rows : List String) (v : Bool),
        VariantB.buttonDisabled rows v VariantB.ProcessingStatus.ANALYZING = true)
    ∧ VariantC.buttonDisabled "ANALYZING" = true
    ∧ (∀ (env : VariantA.Env) (s : VariantA.State),
        ((VariantA.runForensicAudit env s).statusTrace.dropLast).all VariantA.inFlight = true)
    ∧ (∀ (env : VariantB.Env) (s : VariantB.State),
        ((VariantB.handleProcess env s).statusTrace.dropLast).all
          (fun ps => ps == VariantB.ProcessingStatus.ANALYZING) = true)
    ∧ (∀ (env : VariantC.Env) (s : VariantC.State),
        ((VariantC.handleAnalyze env s).statusTrace.dropLast).all
          (fun st => st == "ANALYZING") = true) := by
  refine ⟨?_, ?_, rfl, ?_, ?_, ?_⟩
  · intro st; cases st <;> rfl
  · intro rows v; simp [VariantB.buttonDisabled]
  · intro env s
    unfold VariantA.runForensicAudit
    split
    · rfl
    · split
      · rfl
      · split <;> rfl
  · intro env s
    unfold VariantB.handleProcess
    split
    · rfl
    · split
      · rfl
      · split
        · rfl
        · split
          · rfl
          · split
            · rfl
            · split
              · rfl
              · split <;> rfl
  · intro env s
    unfold VariantC.handleAnalyze
    split
    · rfl
    · split
      · rfl
      · split
        · rfl
        · split
          · rfl
          · split <;> rfl

/-- C7 (amended): whenever `extractFramesFromVideo` creates its temporary
object URL — that is, on every exit path except the unusable-canvas-context
rejection — the URL is revoked and the video and canvas elements are removed;
on the unusable-context path the operation rejects before the URL is created,
so no URL leaks, but the detached elements are not explicitly removed. -/
theorem C7_cleanup_on_exit_paths :
    ∀ env : VariantB.VideoEnv,
      ((VariantB.extractFramesFromVideo env).res.urlCreated = true →
        (VariantB.extractFramesFromVideo env).res = VariantB.Resources.cleaned)
      ∧ ((VariantB.extractFramesFromVideo env).res.urlCreated = false →
        env.ctxOk = false ∧
          (VariantB.extractFramesFromVideo env).res = VariantB.Resources.untouched) := by
  intro env
  by_cases hc : env.ctxOk = true
  · have hres : (VariantB.extractFramesFromVideo env).res = VariantB.Resources.cleaned := by
      by_cases hl : env.loadError = true
      · simp [VariantB.extractFramesFromVideo, hc, hl]
      · simp only [Bool.not_eq_true] at hl
        simp [VariantB.extractFramesFromVideo, hc, hl, VariantB.seekSteps_res]
    refine ⟨fun _ => hres, fun hfalse => ?_⟩
    rw [hres] at hfalse
    exact absurd hfalse (by decide)
  · simp only [Bool.not_eq_true] at hc
    have hres : (VariantB.extractFramesFromVideo env).res = VariantB.Resources.untouched := by
      simp [VariantB.extractFramesFromVideo, hc]
    refine ⟨fun htrue => ?_, fun _ => ⟨hc, hres⟩⟩
    rw [hres] at htrue
    exact absurd htrue (by decide)

/-- C7 witness: on a concrete successful extraction the URL was created, so
the cleanup ran on that exit path. -/
theorem C7_cleanup_witness :
    (VariantB.extractFramesFromVideo
        ⟨true, false, JsDuration.finite 20, none, fun _ => "data:image/jpeg;base64,QUFB"⟩).res
      = VariantB.Resources.cleaned :=
  (C7_cleanup_on_exit_paths
      ⟨true, false, JsDuration.finite 20, none, fun _ => "data:image/jpeg;base64,QUFB"⟩).1 rfl

/-- C7 counterexample: on the unusable-canvas-context exit path the temporary
video and canvas elements are not released (no cleanup runs; the object URL
was never created on this path). -/
theorem C7_counterexample :
    (VariantB.extractFramesFromVideo
        ⟨false, false, JsDuration.finite 20, none, fun _ => "x"⟩).res.videoRemoved = false
    ∧ (VariantB.extractFramesFromVideo
        ⟨false, false, JsDuration.finite 20, none, fun _ => "x"⟩).res.canvasRemoved = false
    ∧ (VariantB.extractFramesFromVideo
        ⟨false, false, JsDuration.finite 20, none, fun _ => "x"⟩).res.urlCreated = false :=
  ⟨rfl, rfl, rfl⟩

/-- A sample parsed result in the variant A/C shape, used as the "previous
audit result" in concrete runs. -/
def sampleResultAC : AuditResultAC :=
  ⟨"HIGH", true, "$500", 80, "Technical details", "Executive summary", [⟨"Monitor", 10, 2⟩]⟩

/-- A sample variant-B audit result. -/
def sampleResultB : VariantB.AuditResult :=
  ⟨false, "missing stock", "High", "$4,000", "auditor notes", [⟨"Monitor", 10, 2, "DISCREPANCY"⟩]⟩

/-- A sample serialized ledger row. -/
def sampleRow : String := "\x7b\x22Item\x22:\x22Monitor\x22,\x22Qty\x22:\x2210\x22\x7d"

/-- A concrete App.tsx environment whose reasoning response fails to parse. -/
def envA4 : VariantA.Env :=
  ⟨true, JsDuration.finite 10, fun _ => "data:image/jpeg;base64,QUFB", fun _ => "1.00",
   "10:00:00", some "not json", "network unreachable", "Unexpected token", fun _ => none⟩

/-- A concrete App.tsx state holding the result and log of the previous audit. -/
def sA4 : VariantA.State :=
  ⟨VariantA.AuditStatus.COMPLETED, ["[09:00:00] old entry"], [sampleRow], true, true,
   some sampleResultAC⟩

/-- A concrete variant-B environment whose reasoning response fails to parse. -/
def envB4 : VariantB.Env :=
  ⟨⟨true, false, JsDuration.finite 10, none, fun _ => "data:image/jpeg;base64,QUFB"⟩,
   some "not json", "network unreachable", "Unexpected token", fun _ => none,
   "log1", "10:00:01"⟩

/-- A concrete variant-B state holding the result and log of the previous audit. -/
def sB4 : VariantB.State :=
  ⟨"Ready", [sampleRow], true, [], some sampleResultB,
   [⟨"log0", "09:00:00", "old entry", "info"⟩], VariantB.ProcessingStatus.IDLE⟩

/-- A concrete variant-C environment whose reasoning response fails to parse. -/
def envC4 : VariantC.Env :=
  ⟨true, JsDuration.finite 10, fun _ => "data:image/jpeg;base64,QUFB",
   some "not json", "network unreachable", "Unexpected token", fun _ => none⟩

/-- A concrete variant-C state holding the result and log of the previous audit. -/
def sC4 : VariantC.State :=
  ⟨some [sampleRow], true, true, true, "COMPLETED", some sampleResultAC, ["old c entry"]⟩

/-- A concrete variant-B environment whose extraction fails immediately
(unusable canvas context). -/
def envB6 : VariantB.Env :=
  ⟨⟨false, false, JsDuration.finite 1, none, fun _ => "x"⟩,
   none, "network unreachable", "Unexpected token", fun _ => none, "log2", "10:00:02"⟩

/-- C4 (amended): on a response that fails to parse, no variant retries and
each sends exactly one request, but the outcomes differ.  Variant B flips its
processing state to ERROR, appends an error log entry, and shows no stale
result (it discarded the previous result at the start).  Variant A sets its
status to ERROR and appends a CRITICAL ERROR entry but retains the previous
result of the prior audit.  Variant C appends an error entry but sets the status back to
READY — not an error state — and also retains the previous result. -/
theorem C4_parse_failure_outcomes :
    (∀ (env : VariantA.Env) (st : VariantA.AuditStatus) (L rows : List String)
        (row : String) (cp : Bool) (res : Option AuditResultAC) (t : String),
      env.responseText = some t →
      env.parse (cleanFence (jsOrString t "\x7b\x7d")) = none →
      (VariantA.runForensicAudit env ⟨st, L, row :: rows, true, cp, res⟩).state.status
          = VariantA.AuditStatus.ERROR
        ∧ (VariantA.runForensicAudit env ⟨st, L, row :: rows, true, cp, res⟩).state.logs.getLast?
          = some ("[" ++ env.now ++ "] " ++ ("CRITICAL ERROR: " ++ env.parseErrMsg))
        ∧ (VariantA.runForensicAudit env ⟨st, L, row :: rows, true, cp, res⟩).requests.length = 1
        ∧ (VariantA.runForensicAudit env ⟨st, L, row :: rows, true, cp, res⟩).state.result = res)
    ∧ (∀ (env : VariantB.Env) (st : String) (row : String) (rows : List String)
        (ef : List String) (ar : Option VariantB.AuditResult) (logs : List VariantB.AuditLog)
        (ps : VariantB.ProcessingStatus) (D : ℚ) (t : String),
      env.video.ctxOk = true → env.video.loadError = false →
      env.video.duration = JsDuration.finite D → env.video.failAt = none →
      env.responseText = some t → t ≠ "" → env.parse t = none →
      (VariantB.handleProcess env ⟨st, row :: rows, true, ef, ar, logs, ps⟩).state.processingState
          = VariantB.ProcessingStatus.ERROR
        ∧ (VariantB.handleProcess env ⟨st, row :: rows, true, ef, ar, logs, ps⟩).state.status
          = "Error"
        ∧ (VariantB.handleProcess env ⟨st, row :: rows, true, ef, ar, logs, ps⟩).state.logs.getLast?
          = some ⟨env.logId, env.now, "Analysis failed: " ++ env.parseErrMsg, "error"⟩
        ∧ (VariantB.handleProcess env ⟨st, row :: rows, true, ef, ar, logs, ps⟩).state.auditResult
          = none
        ∧ (VariantB.handleProcess env ⟨st, row :: rows, true, ef, ar, logs, ps⟩).requests.length = 1)
    ∧ (∀ (env : VariantC.Env) (csv : List String) (cp : Bool) (st : String)
        (res : Option AuditResultAC) (L : List String) (t : String),
      env.responseText = some t →
      env.parse (cleanFence (jsOrString t "\x7b\x7d")) = none →
      (VariantC.handleAnalyze env ⟨some csv, true, true, cp, st, res, L⟩).state.status = "READY"
        ∧ (VariantC.handleAnalyze env ⟨some csv, true, true, cp, st, res, L⟩).state.logs.getLast?
          = some "Using backup protocol due to API error..."
        ∧ ("ERROR: " ++ env.parseErrMsg)
            ∈ (VariantC.handleAnalyze env ⟨some csv, true, true, cp, st, res, L⟩).state.logs
        ∧ (VariantC.handleAnalyze env ⟨some csv, true, true, cp, st, res, L⟩).state.result = res
        ∧ (VariantC.handleAnalyze env ⟨some csv, true, true, cp, st, res, L⟩).requests.length = 1) := by
  refine ⟨?_, ?_, ?_⟩
  · intro env st L rows row cp res t hrt hp
    simp [VariantA.runForensicAudit, hrt, hp, VariantA.addLog, List.getLast?_concat]
  · intro env st row rows ef ar logs ps D t hc hl hd hf hrt ht hp
    have hx := VariantB.extract_ok env.video D hc hl hd hf
    simp [VariantB.handleProcess, hx, hrt, ht, hp, VariantB.failRun, VariantB.addLog,
          List.getLast?_concat]
  · intro env csv cp st res L t hrt hp
    simp [VariantC.handleAnalyze, hrt, hp, VariantC.failRun, List.getLast?_concat]

/-- C4 witness: the amended theorem applied to concrete parse-failure runs of
all three variants. -/
theorem C4_parse_failure_witness :
    (VariantA.runForensicAudit envA4 sA4).state.status = VariantA.AuditStatus.ERROR
    ∧ (VariantB.handleProcess envB4 sB4).state.processingState = VariantB.ProcessingStatus.ERROR
    ∧ (VariantB.handleProcess envB4 sB4).state.auditResult = none
    ∧ (VariantC.handleAnalyze envC4 sC4).state.status = "READY" :=
  ⟨(C4_parse_failure_outcomes.1 envA4 VariantA.AuditStatus.COMPLETED ["[09:00:00] old entry"]
      [] sampleRow true (some sampleResultAC) "not json" rfl rfl).1,
   (C4_parse_failure_outcomes.2.1 envB4 "Ready" sampleRow [] [] (some sampleResultB)
      [⟨"log0", "09:00:00", "old entry", "info"⟩] VariantB.ProcessingStatus.IDLE 10
      "not json" rfl rfl rfl rfl rfl (by decide) rfl).1,
   (C4_parse_failure_outcomes.2.1 envB4 "Ready" sampleRow [] [] (some sampleResultB)
      [⟨"log0", "09:00:00", "old entry", "info"⟩] VariantB.ProcessingStatus.IDLE 10
      "not json" rfl rfl rfl rfl rfl (by decide) rfl).2.2.2.1,
   (C4_parse_failure_outcomes.2.2 envC4 [sampleRow] true "COMPLETED" (some sampleResultAC)
      ["old c entry"] "not json" rfl rfl).1⟩

/-- C4 counterexample: on a parse failure, variant C sets the status back to
READY — its ready state, not an error state — and both variant C and variant
A keep the result of the previous audit in state, which the result panel renders
whenever it is non-null; so the claim that every variant transitions to an
error state and displays no previously computed result fails on this input. -/
theorem C4_counterexample :
    (VariantC.handleAnalyze envC4 sC4).state.status = "READY"
    ∧ (VariantC.handleAnalyze envC4 sC4).state.result = some sampleResultAC
    ∧ (VariantA.runForensicAudit envA4 sA4).state.status = VariantA.AuditStatus.ERROR
    ∧ (VariantA.runForensicAudit envA4 sA4).state.result = some sampleResultAC
    ∧ VariantA.displayedResult (VariantA.runForensicAudit envA4 sA4).state.result
      = some (VariantA.renderResult sampleResultAC) :=
  ⟨rfl, rfl, rfl, rfl, rfl⟩

/-- C6 (amended): at the start of a run, variants A and C clear the session
log (the final log is independent of the prior log) and variant B discards
the previous result (the final result is independent of the prior result);
but variant B never clears its log, and variants A and C retain the previous
result until a successful parse replaces it. -/
theorem C6_reset_semantics :
    (∀ (env : VariantA.Env) (st : VariantA.AuditStatus) (L L' rows : List String)
        (row : String) (cp : Bool) (res : Option AuditResultAC),
      (VariantA.runForensicAudit env ⟨st, L, row :: rows, true, cp, res⟩).state.logs
        = (VariantA.runForensicAudit env ⟨st, L', row :: rows, true, cp, res⟩).state.logs)
    ∧ (∀ (env : VariantC.Env) (csv L L' : List String) (vr cp : Bool) (st : String)
        (res : Option AuditResultAC),
      (VariantC.handleAnalyze env ⟨some csv, true, vr, cp, st, res, L⟩).state.logs
        = (VariantC.handleAnalyze env ⟨some csv, true, vr, cp, st, res, L'⟩).state.logs)
    ∧ (∀ (env : VariantB.Env) (st : String) (row : String) (rows ef : List String)
        (ar ar' : Option VariantB.AuditResult) (logs : List VariantB.AuditLog)
        (ps : VariantB.ProcessingStatus),
      (VariantB.handleProcess env ⟨st, row :: rows, true, ef, ar, logs, ps⟩).state.auditResult
        = (VariantB.handleProcess env ⟨st, row :: rows, true, ef, ar', logs, ps⟩).state.auditResult) := by
  refine ⟨?_, ?_, ?_⟩
  · intro env st L L' rows row cp res
    cases hrt : env.responseText with
    | none => simp [VariantA.runForensicAudit, hrt]
    | some t =>
      cases hp : env.parse (cleanFence (jsOrString t "\x7b\x7d")) with
      | none => simp [VariantA.runForensicAudit, hrt, hp]
      | some r => simp [VariantA.runForensicAudit, hrt, hp]
  · intro env csv L L' vr cp st res
    by_cases hvr : vr = true
    · cases hrt : env.responseText with
      | none => simp [VariantC.handleAnalyze, hvr, hrt, VariantC.failRun]
      | some t =>
        cases hp : env.parse (cleanFence (jsOrString t "\x7b\x7d")) with
        | none => simp [VariantC.handleAnalyze, hvr, hrt, hp, VariantC.failRun]
        | some r => simp [VariantC.handleAnalyze, hvr, hrt, hp]
    · simp only [Bool.not_eq_true] at hvr
      simp [VariantC.handleAnalyze, hvr, VariantC.failRun]
  · intro env st row rows ef ar ar' logs ps
    cases hx : (VariantB.extractFramesFromVideo env.video).result with
    | error e => simp [VariantB.handleProcess, hx, VariantB.failRun]
    | ok frames =>
      by_cases hfe : frames.isEmpty
      · simp [VariantB.handleProcess, hx, hfe, VariantB.failRun]
      · cases hrt : env.responseText with
        | none => simp [VariantB.handleProcess, hx, hfe, hrt, VariantB.failRun]
        | some t =>
          by_cases ht : t = ""
          · simp [VariantB.handleProcess, hx, hfe, hrt, ht, VariantB.failRun]
          · cases hp : env.parse t with
            | none => simp [VariantB.handleProcess, hx, hfe, hrt, ht, hp, VariantB.failRun]
            | some r =>
              by_cases hap : r.audit_pass
              · simp [VariantB.handleProcess, hx, hfe, hrt, ht, hp, hap]
              · simp [VariantB.handleProcess, hx, hfe, hrt, ht, hp, hap]

/-- C6 counterexample: a variant-B run leaves the log entry of the prior audit at
the head of the log (the log is never cleared at the start of a run), and a
failing variant-A run still holds the result of the previous audit afterwards (the
prior result is not discarded at the start of a run). -/
theorem C6_counterexample :
    (VariantB.handleProcess envB6 sB4).state.logs.head?
      = some ⟨"log0", "09:00:00", "old entry", "info"⟩
    ∧ (VariantA.runForensicAudit envA4 sA4).state.result = some sampleResultAC
    ∧ sA4.result = some sampleResultAC :=
  ⟨rfl, rfl, rfl⟩

namespace VariantB

/-- When every frame has a truthy base64 payload, the `analyzeEvidence`
attachment filter keeps all of them, in order. -/
theorem filterMap_payload_eq :
    ∀ (frames : List String), (∀ f ∈ frames, dataUrlPayload f ≠ "") →
      frames.filterMap (fun f =>
          if dataUrlPayload f = "" then none
          else some (ReqPart.inlineImage "image/jpeg" (dataUrlPayload f)))
        = frames.map (fun f => ReqPart.inlineImage "image/jpeg" (dataUrlPayload f)) := by
  intro frames
  induction frames with
  | nil => intro _; rfl
  | cons a tl ih =>
    intro h
    have ha : dataUrlPayload a ≠ "" := h a (by simp)
    simp only [List.filterMap_cons, List.map_cons, if_neg ha]
    rw [ih (fun f hf => h f (by simp [hf]))]

end VariantB

/-- A triple of concrete captured frames in data-URL form. -/
def frames3 : List String :=
  ["data:image/jpeg;base64,QUFB", "data:image/jpeg;base64,QkJC", "data:image/jpeg;base64,Q0ND"]

/-- A sixteen-row ledger (each row abstracted to its serialized text). -/
def rows16 : List String :=
  ["r01", "r02", "r03", "r04", "r05", "r06", "r07", "r08",
   "r09", "r10", "r11", "r12", "r13", "r14", "r15", "r16"]

/-- C3 (amended): given a non-empty ledger and a successful three-frame
extraction, each variant constructs exactly one multimodal request.  Variants
A and C put a fixed instruction text around a serialization of a bounded
prefix of the ledger (first 15 rows for App.tsx, first 10 for variant C) and
attach the three frames inline; variant B carries its fixed instruction as
the system instruction of the request and attaches the three frames inline, but
serializes the entire ledger rather than a bounded 10-to-15-row prefix. -/
theorem C3_single_bounded_request :
    (∀ (env : VariantA.Env) (st : VariantA.AuditStatus) (L rows : List String)
        (row : String) (res : Option AuditResultAC),
      env.ctxOk = true →
      (VariantA.runForensicAudit env ⟨st, L, row :: rows, true, true, res⟩).requests
        = [VariantA.buildRequest (row :: rows)
            [dataUrlPayload (env.capture ((VariantA.durationWithFallback env.duration).mulFrac 0.1)),
             dataUrlPayload (env.capture ((VariantA.durationWithFallback env.duration).mulFrac 0.5)),
             dataUrlPayload (env.capture ((VariantA.durationWithFallback env.duration).mulFrac 0.9))]])
    ∧ (∀ (csvData frames : List String),
      (VariantA.buildRequest csvData frames).parts
        = ReqPart.text (VariantA.promptPre ++ jsonStringifyRows (csvData.take 15)
            ++ VariantA.promptPost)
          :: frames.map (fun f => ReqPart.inlineImage "image/jpeg" f))
    ∧ (∀ (env : VariantC.Env) (csv L : List String) (st : String)
        (res : Option AuditResultAC),
      env.ctxOk = true →
      (VariantC.handleAnalyze env ⟨some csv, true, true, true, st, res, L⟩).requests
        = [VariantC.buildRequest csv
            [dataUrlPayload (env.capture (env.duration.mulFrac 0.1)),
             dataUrlPayload (env.capture (env.duration.mulFrac 0.5)),
             dataUrlPayload (env.capture (env.duration.mulFrac 0.9))]])
    ∧ (∀ (csvData frames : List String),
      (VariantC.buildRequest csvData frames).parts
        = ReqPart.text (VariantC.promptPre ++ jsonStringifyRows (csvData.take 10)
            ++ VariantC.promptPost)
          :: frames.map (fun f => ReqPart.inlineImage "image/jpeg" f))
    ∧ (∀ (env : VariantB.Env) (st : String) (row : String) (rows ef : List String)
        (ar : Option VariantB.AuditResult) (logs : List VariantB.AuditLog)
        (ps : VariantB.ProcessingStatus) (D : ℚ),
      env.video.ctxOk = true → env.video.loadError = false →
      env.video.duration = JsDuration.finite D → env.video.failAt = none →
      (VariantB.handleProcess env ⟨st, row :: rows, true, ef, ar, logs, ps⟩).requests
        = [VariantB.buildRequest (row :: rows)
            [env.video.capture (JsDuration.finite (D * 0.1)),
             env.video.capture (JsDuration.finite (D * 0.5)),
             env.video.capture (JsDuration.finite (D * 0.9))]])
    ∧ (∀ (rows frames : List String), (∀ f ∈ frames, dataUrlPayload f ≠ "") →
      (VariantB.buildRequest rows frames).parts
        = ReqPart.text (VariantB.ledgerText rows)
          :: frames.map (fun f => ReqPart.inlineImage "image/jpeg" (dataUrlPayload f))) := by
  refine ⟨?_, fun _ _ => rfl, ?_, fun _ _ => rfl, ?_, ?_⟩
  · intro env st L rows row res hx
    have hfr := VariantA.extractFrames_frames
      ⟨true, true, env.ctxOk, env.duration, env.capture, env.toFixed2⟩ rfl rfl hx
    cases hrt : env.responseText with
    | none => simp [VariantA.runForensicAudit, hrt, hfr]
    | some t =>
      cases hp : env.parse (cleanFence (jsOrString t "\x7b\x7d")) with
      | none => simp [VariantA.runForensicAudit, hrt, hp, hfr]
      | some r => simp [VariantA.runForensicAudit, hrt, hp, hfr]
  · intro env csv L st res hx
    have hfr : VariantC.extractFrames ⟨true, env.ctxOk, env.duration, env.capture⟩
        = [dataUrlPayload (env.capture (env.duration.mulFrac 0.1)),
           dataUrlPayload (env.capture (env.duration.mulFrac 0.5)),
           dataUrlPayload (env.capture (env.duration.mulFrac 0.9))] := by
      simp [VariantC.extractFrames, hx, VariantC.timePoints]
    cases hrt : env.responseText with
    | none => simp [VariantC.handleAnalyze, hrt, hfr, VariantC.failRun]
    | some t =>
      cases hp : env.parse (cleanFence (jsOrString t "\x7b\x7d")) with
      | none => simp [VariantC.handleAnalyze, hrt, hp, hfr, VariantC.failRun]
      | some r => simp [VariantC.handleAnalyze, hrt, hp, hfr]
  · intro env st row rows ef ar logs ps D hc hl hd hf
    have hx := VariantB.extract_ok env.video D hc hl hd hf
    cases hrt : env.responseText with
    | none => simp [VariantB.handleProcess, hx, hrt, VariantB.failRun]
    | some t =>
      by_cases ht : t = ""
      · simp [VariantB.handleProcess, hx, hrt, ht, VariantB.failRun]
      · cases hp : env.parse t with
        | none => simp [VariantB.handleProcess, hx, hrt, ht, hp, VariantB.failRun]
        | some r =>
          by_cases hap : r.audit_pass
          · simp [VariantB.handleProcess, hx, hrt, ht, hp, hap]
          · simp [VariantB.handleProcess, hx, hrt, ht, hp, hap]
  · intro rows frames h
    simp only [VariantB.buildRequest]
    rw [VariantB.filterMap_payload_eq frames h]

/-- C3 witness: the amended theorem applied to concrete runs and a concrete
well-formed frame triple. -/
theorem C3_single_bounded_request_witness :
    (VariantA.runForensicAudit envA4 sA4).requests
      = [VariantA.buildRequest [sampleRow]
          [dataUrlPayload ((fun (_ : JsDuration) => "data:image/jpeg;base64,QUFB")
              ((VariantA.durationWithFallback (JsDuration.finite 10)).mulFrac 0.1)),
           dataUrlPayload ((fun (_ : JsDuration) => "data:image/jpeg;base64,QUFB")
              ((VariantA.durationWithFallback (JsDuration.finite 10)).mulFrac 0.5)),
           dataUrlPayload ((fun (_ : JsDuration) => "data:image/jpeg;base64,QUFB")
              ((VariantA.durationWithFallback (JsDuration.finite 10)).mulFrac 0.9))]]
    ∧ (VariantB.buildRequest rows16 frames3).parts
      = ReqPart.text (VariantB.ledgerText rows16)
        :: frames3.map (fun f => ReqPart.inlineImage "image/jpeg" (dataUrlPayload f)) :=
  ⟨C3_single_bounded_request.1 envA4 VariantA.AuditStatus.COMPLETED ["[09:00:00] old entry"]
      [] sampleRow (some sampleResultAC) rfl,
   C3_single_bounded_request.2.2.2.2.2 rows16 frames3 (by decide)⟩

set_option maxRecDepth 8000 in
/-- C3 counterexample: with a sixteen-row ledger, the ledger text of the
variant-B request serializes all sixteen rows — it is not the serialization
of any bounded first-10-to-15-row prefix, contradicting the claim that every
variant serializes only the first 10 to 15 rows. -/
theorem C3_counterexample :
    rows16.length = 16
    ∧ (VariantB.buildRequest rows16 frames3).parts.head?
      = some (ReqPart.text (VariantB.ledgerText rows16))
    ∧ VariantB.ledgerText rows16 ∉
        [VariantB.ledgerText (rows16.take 10), VariantB.ledgerText (rows16.take 11),
         VariantB.ledgerText (rows16.take 12), VariantB.ledgerText (rows16.take 13),
         VariantB.ledgerText (rows16.take 14), VariantB.ledgerText (rows16.take 15)] := by
  refine ⟨rfl, rfl, ?_⟩
  decide

/-- A two-row result whose first row mismatches and second row matches. -/
def sampleResultTwoRows : AuditResultAC :=
  ⟨"HIGH", true, "$1,500", 70, "details", "summary", [⟨"Item A", 2, 5⟩, ⟨"Item B", 5, 5⟩]⟩

/-- C8 (amended): each variant displays the risk classification of the result,
financial-impact string, and exactly its per-item rows; but the visual
discrepancy marking differs.  Variant A colors a row as a discrepancy exactly
when actual < claimed, so a row whose actual exceeds its claimed quantity is
colored like a match; variant B colors by the status field of the result, which
for well-formed (derived-status) rows marks exactly the mismatched pairs; and
variant C colors every actual bar identically, with no per-row distinction. -/
theorem C8_render_result :
    (∀ r : AuditResultAC,
      (VariantA.renderResult r).riskText = r.risk_score
        ∧ (VariantA.renderResult r).impactText = r.financial_impact
        ∧ (VariantA.renderResult r).chartRows = r.stats
        ∧ (VariantA.renderResult r).actualCellFills = r.stats.map VariantA.cellFill)
    ∧ (∀ (n : String) (c : Int) (k : ℕ),
      VariantA.cellFill ⟨n, c, c + ((k : Int) + 1)⟩ = "#10b981"
        ∧ VariantA.cellFill ⟨n, c + ((k : Int) + 1), c⟩ = "#f43f5e"
        ∧ VariantA.cellFill ⟨n, c, c⟩ = "#10b981")
    ∧ (∀ r : VariantB.AuditResult,
      (VariantB.renderResult r).riskShown = r.risk_score
        ∧ (VariantB.renderResult r).impactText = r.financial_impact
        ∧ (VariantB.renderResult r).chartRows = r.findings_data
        ∧ (VariantB.renderResult r).actualCellFills = r.findings_data.map VariantB.cellFill)
    ∧ (∀ (n : String) (c a : Int),
      VariantB.cellFill ⟨n, c, a, if c = a then "MATCH" else "DISCREPANCY"⟩
        = if c = a then "#10b981" else "#f43f5e")
    ∧ (∀ r : AuditResultAC,
      (VariantC.renderResult r).riskText = r.risk_score
        ∧ (VariantC.renderResult r).impactText = r.financial_impact
        ∧ (VariantC.renderResult r).chartRows = r.stats
        ∧ (VariantC.renderResult r).actualCellFills
          = r.stats.map (fun _ => VariantC.actualBarFill)) := by
  refine ⟨fun r => ⟨rfl, rfl, rfl, rfl⟩, ?_, fun r => ⟨rfl, rfl, rfl, rfl⟩, ?_,
          fun r => ⟨rfl, rfl, rfl, rfl⟩⟩
  · intro n c k
    refine ⟨?_, ?_, ?_⟩
    · simp only [VariantA.cellFill]
      rw [if_neg (by omega)]
    · simp only [VariantA.cellFill]
      rw [if_pos (by omega)]
    · simp only [VariantA.cellFill]
      rw [if_neg (by omega)]
  · intro n c a
    by_cases hca : c = a
    · simp [VariantB.cellFill, hca]
    · simp [VariantB.cellFill, hca]

/-- C8 counterexample: the pair (claimed 2, actual 5) differs, yet variant A
colors it exactly like the matched pair (5, 5) — mismatched rows whose actual
exceeds their claimed quantity are not visually distinguished from matches —
and variant C gives a mismatched and a matched row the identical fill. -/
theorem C8_counterexample :
    VariantA.cellFill ⟨"Item A", 2, 5⟩ = VariantA.cellFill ⟨"Item B", 5, 5⟩
    ∧ (2 : Int) ≠ 5
    ∧ (VariantC.renderResult sampleResultTwoRows).actualCellFills
      = ["#f43f5e", "#f43f5e"] := by
  refine ⟨?_, by decide, rfl⟩
  rfl

@[simp] theorem PdfDoc.text_pages (d : PdfDoc) (s : String) (x y : ℚ) :
    (d.text s x y).pages = d.pages := rfl

@[simp] theorem PdfDoc.text_texts (d : PdfDoc) (s : String) (x y : ℚ) :
    (d.text s x y).texts = d.texts ++ [⟨d.pages, x, y, s⟩] := rfl

@[simp] theorem PdfDoc.addPage_pages (d : PdfDoc) : d.addPage.pages = d.pages + 1 := rfl

@[simp] theorem PdfDoc.addPage_texts (d : PdfDoc) : d.addPage.texts = d.texts := rfl

/-- Drawing a batch of lines does not change the page count. -/
@[simp] theorem PdfDoc.textLines_pages :
    ∀ (ls : List String) (d : PdfDoc) (x y : ℚ), (d.textLines ls x y).pages = d.pages := by
  intro ls
  induction ls with
  | nil => intro d x y; rfl
  | cons a tl ih =>
    intro d x y
    show ((d.text a x y).textLines tl x y).pages = d.pages
    rw [ih]
    rfl

/-- Drawing a batch of lines appends one text item per line, on the current
page. -/
theorem PdfDoc.textLines_texts :
    ∀ (ls : List String) (d : PdfDoc) (x y : ℚ),
      (d.textLines ls x y).texts
        = d.texts ++ ls.map (fun s => (⟨d.pages, x, y, s⟩ : PdfText)) := by
  intro ls
  induction ls with
  | nil => intro d x y; simp [PdfDoc.textLines]
  | cons a tl ih =>
    intro d x y
    show ((d.text a x y).textLines tl x y).texts = _
    rw [ih]
    simp

namespace VariantA

/-- The four cell strings of one certificate stats row, in drawing order. -/
def rowStrs (it : StatRow) : List String :=
  [it.name, toString it.claimed, toString it.actual, rowStatusText it]

/-- The strings the certificate draws before the stats rows, in order. -/
def certPreludeStrs (env : CertEnv) (r : AuditResultAC) : List String :=
  ["TRUE-LEDGER FORENSIC AUDIT", "AUDIT ID: TL-" ++ toString env.auditId,
   "DATE: " ++ env.dateStr, "EXECUTIVE FINDINGS"]
  ++ env.splitSummary (jsOrString r.summary "No summary available.")
  ++ ["Item", "Claimed", "Actual", "Status"]

/-- The strings of the signature footer, in order. -/
def certFooterStrs : List String :=
  ["Digitally Signed by True-Ledger AI 2.0", "Principal Architect & CA"]

theorem certPrelude_strs (env : CertEnv) (r : AuditResultAC) :
    (certPrelude env r).texts.map PdfText.str = certPreludeStrs env r := by
  simp only [certPrelude, certPreludeStrs, PdfDoc.textLines_texts, PdfDoc.empty,
             PdfDoc.text_texts, PdfDoc.text_pages, PdfDoc.textLines_pages,
             List.map_append, List.map_cons, List.map_map, List.map_nil, List.append_assoc,
             List.nil_append, List.cons_append]
  have hid : (PdfText.str ∘ fun s => ({ page := 1, x := 15, y := 85, str := s } : PdfText))
      = fun s => s := rfl
  rw [hid, List.map_id']

theorem certPrelude_pages (env : CertEnv) (r : AuditResultAC) :
    (certPrelude env r).pages = 1 := by
  simp [certPrelude, PdfDoc.empty]

/-- The page count of the stats fold refines the pagination rule of the spec: a
break happens exactly when the incoming cursor exceeds the 270 budget. -/
theorem certRows_pages :
    ∀ (stats : List StatRow) (acc : PdfDoc × ℚ),
      (stats.foldl certRowStep acc).1.pages
        = acc.1.pages + specPageBreaks 270 8 20 acc.2 stats := by
  intro stats
  induction stats with
  | nil => intro acc; simp [specPageBreaks]
  | cons it tl ih =>
    intro acc
    rw [List.foldl_cons, ih]
    by_cases h : acc.2 > 270
    · simp only [certRowStep, if_pos h, specPageBreaks]
      simp
      omega
    · simp only [certRowStep, if_neg h, specPageBreaks]
      simp

/-- The stats fold appends exactly four text items per row, whose strings are
the cells of the row in order and whose y position never exceeds the 270 budget. -/
theorem certRows_texts :
    ∀ (stats : List StatRow) (acc : PdfDoc × ℚ),
      ∃ rest : List PdfText,
        (stats.foldl certRowStep acc).1.texts = acc.1.texts ++ rest
        ∧ rest.map PdfText.str = (stats.map rowStrs).flatten
        ∧ rest.length = 4 * stats.length
        ∧ rest.all (fun t => decide (t.y ≤ 270)) = true := by
  intro stats
  induction stats with
  | nil =>
    intro acc
    exact ⟨[], by simp, rfl, rfl, rfl⟩
  | cons it tl ih =>
    intro acc
    rw [List.foldl_cons]
    obtain ⟨rest, hT, hS, hL, hA⟩ := ih (certRowStep acc it)
    by_cases h : acc.2 > 270
    · refine ⟨[⟨acc.1.pages + 1, 20, 20, it.name⟩,
               ⟨acc.1.pages + 1, 100, 20, toString it.claimed⟩,
               ⟨acc.1.pages + 1, 130, 20, toString it.actual⟩,
               ⟨acc.1.pages + 1, 160, 20, rowStatusText it⟩] ++ rest, ?_, ?_, ?_, ?_⟩
      · rw [hT]
        simp [certRowStep, if_pos h]
      · simp [hS, rowStrs]
      · simp [hL]
        omega
      · simp only [List.all_append, hA, Bool.and_true, List.all_cons, List.all_nil,
                    Bool.and_eq_true, decide_eq_true_eq]
        norm_num
    · refine ⟨[⟨acc.1.pages, 20, acc.2, it.name⟩,
               ⟨acc.1.pages, 100, acc.2, toString it.claimed⟩,
               ⟨acc.1.pages, 130, acc.2, toString it.actual⟩,
               ⟨acc.1.pages, 160, acc.2, rowStatusText it⟩] ++ rest, ?_, ?_, ?_, ?_⟩
      · rw [hT]
        simp [certRowStep, if_neg h]
      · simp [hS, rowStrs]
      · simp [hL]
        omega
      · have h270 : ((acc.2 ≤ 270) = True) := eq_true (not_lt.mp h)
        simp only [List.all_append, hA, Bool.and_true, List.all_cons, List.all_nil,
                   Bool.and_eq_true, decide_eq_true_eq, h270]
        norm_num

end VariantA

/-- C9 (amended): for every result — zero, one, or many findings — the
App.tsx certificate contains the header and exactly one four-cell row per
finding, in order and none omitted; its page count equals one plus the number
of page breaks the spec rule dictates (a break exactly when the incoming
row cursor exceeds the fixed 270 budget, never before), and every stats row
is drawn within the budget.  The simplified variant-B export, by contrast,
always produces only the single title line, omitting the findings rows. -/
theorem C9_certificate_layout :
    (∀ (env : VariantA.CertEnv) (r : AuditResultAC),
      (VariantA.buildCert env r).texts.map PdfText.str
        = VariantA.certPreludeStrs env r ++ (r.stats.map VariantA.rowStrs).flatten
          ++ VariantA.certFooterStrs)
    ∧ (∀ (env : VariantA.CertEnv) (r : AuditResultAC),
      (VariantA.buildCert env r).pages
        = 1 + specPageBreaks 270 8 20 (VariantA.certStartY env r) r.stats)
    ∧ (∀ (env : VariantA.CertEnv) (r : AuditResultAC),
      (((VariantA.buildCert env r).texts.drop
          (VariantA.certPrelude env r).texts.length).take (4 * r.stats.length)).all
        (fun t => decide (t.y ≤ 270)) = true)
    ∧ (∀ (env : VariantB.Env) (r : VariantB.AuditResult) (logs : List VariantB.AuditLog),
      (VariantB.handleDownloadCertificate env (some r) logs).1 = some VariantB.certDoc)
    ∧ VariantB.certDoc.texts.map PdfText.str = ["TRUE-LEDGER REPORT"] := by
  refine ⟨?_, ?_, ?_, fun _ _ _ => rfl, rfl⟩
  · intro env r
    obtain ⟨rest, hT, hS, hL, hA⟩ :=
      VariantA.certRows_texts r.stats (VariantA.certPrelude env r, VariantA.certStartY env r)
    simp only [VariantA.buildCert, PdfDoc.text_texts, hT]
    simp [VariantA.certPrelude_strs, hS, VariantA.certFooterStrs]
  · intro env r
    simp only [VariantA.buildCert, PdfDoc.text_pages]
    rw [VariantA.certRows_pages r.stats (VariantA.certPrelude env r, VariantA.certStartY env r)]
    rw [VariantA.certPrelude_pages]
  · intro env r
    obtain ⟨rest, hT, hS, hL, hA⟩ :=
      VariantA.certRows_texts r.stats (VariantA.certPrelude env r, VariantA.certStartY env r)
    simp only [VariantA.buildCert, PdfDoc.text_texts, hT, List.append_assoc]
    rw [List.drop_left, ← hL, List.take_left]
    exact hA

/-- C9 counterexample: for a result with one finding, the variant-B export
contains only the title line; no row for the finding (item "Monitor") appears
in the document, contradicting the claim that the export of each variant contains
one row for every finding. -/
theorem C9_counterexample :
    sampleResultB.findings_data.length = 1
    ∧ (VariantB.handleDownloadCertificate envB4 (some sampleResultB) []).1
      = some VariantB.certDoc
    ∧ VariantB.certDoc.texts.map PdfText.str = ["TRUE-LEDGER REPORT"]
    ∧ "Monitor" ∉ VariantB.certDoc.texts.map PdfText.str := by
  refine ⟨rfl, rfl, rfl, ?_⟩
  decide

/-- C10: with no audit result present, certificate export is a no-op in both
variants that define it: no document is produced, no download fires, and the
session state (the variant-B log) is unchanged. -/
theorem C10_export_without_result_no_op :
    (∀ env : VariantA.CertEnv, VariantA.downloadCertificate env none = none)
    ∧ (∀ (env : VariantB.Env) (logs : List VariantB.AuditLog),
        VariantB.handleDownloadCertificate env none logs = (none, logs)) :=
  ⟨fun _ => rfl, fun _ _ => rfl⟩
